import Mathlib

/-!
Verification development for the investor-intake repository.

The definitions below are shallow embeddings of the TypeScript sources:
`src/lib/validation-constants.ts`, `src/lib/investor-validation.ts`,
`src/lib/file-upload.ts`, `src/app/api/investors/route.ts` (the version of
`POST` that calls `validateInvestorData`), and the SQL CHECK constraints from
the prisma migration adding `chk_*` constraints on the `investors` table.

Modelling conventions:
- JavaScript strings are modelled as Lean `String`; `.length` counts
  characters (identical to the JS count on the ASCII data of interest).
- Calendar dates are civil triples (year, month, day); time zones are not
  modelled (`new Date().getFullYear/getMonth/getDate` are read off the
  triple directly).
- Fallible or stateful operations (file writes, mkdir, the database call)
  are driven by an explicit `World` of outcome flags and name-generation
  seeds; JS exceptions are `Except`.
-/

set_option maxRecDepth 100000

namespace IntakeModel

/-- Trim characters satisfying `p` from both ends of a list. -/
def trimBy (p : Char → Bool) (l : List Char) : List Char :=
  ((l.dropWhile p).reverse.dropWhile p).reverse

/-- Embedding of JavaScript `String.prototype.trim` (strips whitespace from
both ends). -/
def jsTrim (s : String) : String :=
  String.mk (trimBy Char.isWhitespace s.data)

/-- Embedding of PostgreSQL `TRIM(x)` (strips space characters only). -/
def pgTrim (s : String) : String :=
  String.mk (trimBy (· = ' ') s.data)

/-- `normalizePhoneNumber` from validation-constants.ts:
`phoneNumber.replace(/\D/g, '')` — delete every non-digit character. -/
def normalizePhoneNumber (phoneNumber : String) : String :=
  String.mk (phoneNumber.data.filter Char.isDigit)

/-- `US_STATES_LIST` from validation-constants.ts (50 states + DC). -/
def US_STATES_LIST : List String :=
  ["AL", "AK", "AZ", "AR", "CA", "CO", "CT", "DE", "FL", "GA",
   "HI", "ID", "IL", "IN", "IA", "KS", "KY", "LA", "ME", "MD",
   "MA", "MI", "MN", "MS", "MO", "MT", "NE", "NV", "NH", "NJ",
   "NM", "NY", "NC", "ND", "OH", "OK", "OR", "PA", "RI", "SC",
   "SD", "TN", "TX", "UT", "VT", "VA", "WA", "WV", "WI", "WY", "DC"]

/-- Embedding of JS `String.prototype.toUpperCase` (character-wise upper
casing; the inputs of interest are ASCII). -/
def jsToUpper (s : String) : String :=
  String.mk (s.data.map Char.toUpper)

/-- `isValidStateCode` from validation-constants.ts:
`US_STATES_LIST.includes(state.toUpperCase())`. -/
def isValidStateCode (state : String) : Bool :=
  US_STATES_LIST.contains (jsToUpper state)

/-- A civil date as read off JavaScript `Date` accessors
(`getFullYear`, month, day-of-month).  Months here are 1-based; the code
only ever subtracts two month numbers, which is invariant under the shift
from JS 0-based months. -/
structure SDate where
  year : Int
  month : Int
  day : Int
deriving DecidableEq, Repr

/-- `calculateAge` from validation-constants.ts, after `new Date(dateOfBirth)`
has produced a valid date `dob` and `new Date()` is `now`:
year difference, decremented when the birthday has not yet occurred. -/
def calculateAge (dob now : SDate) : Int :=
  let age := now.year - dob.year
  let monthDiff := now.month - dob.month
  let dayDiff := now.day - dob.day
  if monthDiff < 0 ∨ (monthDiff = 0 ∧ dayDiff < 0) then age - 1 else age

/-- Defined from the spec's words, for comparison with `calculateAge`:
"compute age in whole years as of now, decrementing by one if the current
month/day precedes the birth month/day in the current year (standard
anniversary-based age calculation)". -/
def anniversaryAge (dob now : SDate) : Int :=
  (now.year - dob.year) -
    (if now.month < dob.month ∨ (now.month = dob.month ∧ now.day < dob.day)
     then 1 else 0)

/-- Numeric value of a digit character list (most significant first). -/
def digitsToNat (l : List Char) : Nat :=
  l.foldl (fun a c => 10 * a + (c.toNat - 48)) 0

/-- Embedding of JS `s.split('-')[0]`: the prefix before the first `'-'`. -/
def jsSplitHyphenHead (s : String) : String :=
  String.mk (s.data.takeWhile (· ≠ '-'))

/-- Embedding of JS `parseInt(s, 10)` for the call sites in this code base
(strings whose relevant prefix is a plain digit run): the value of the
leading digit run, or `none` for `NaN` when there is no leading digit. -/
def jsParseInt (s : String) : Option Nat :=
  let ds := s.data.takeWhile Char.isDigit
  if ds.isEmpty then none else some (digitsToNat ds)

/-- `isValidZipRange` from validation-constants.ts:
`parseInt(zipCode.split('-')[0], 10)` must lie in `[501, 99950]`
(`NaN` comparisons are false, modelled by the `none` branch). -/
def isValidZipRange (zipCode : String) : Bool :=
  match jsParseInt (jsSplitHyphenHead zipCode) with
  | none => false
  | some zipNum => 501 ≤ zipNum ∧ zipNum ≤ 99950

/-- The ZIP format regex `^\d{5}(-\d{4})?$` shared by
`ZIP_VALIDATION.REGEX` (JS) and `chk_zip_code_format` (SQL):
exactly 5 digits, or 5 digits, a hyphen, and 4 digits. -/
def zipFormatMatch (s : String) : Bool :=
  ((s.data.length = 5) && s.data.all Char.isDigit)
  || ((s.data.length = 10) && (s.data.take 5).all Char.isDigit
      && ((s.data.drop 5).headD ' ' = '-')
      && ((s.data.drop 5).tail).all Char.isDigit)

/-- Numeric value of the leading five digits of a ZIP string
(`CAST(SUBSTRING(zip_code, 1, 5) AS INTEGER)` in the schema). -/
def zipVal (s : String) : Nat :=
  digitsToNat (s.data.take 5)

/-- Embedding of `new Date(dateOfBirth)` on the strings the date form field
submits: strict `YYYY-MM-DD`.  `none` models an Invalid Date (every `get*`
accessor `NaN`). -/
def parseDate (s : String) : Option SDate :=
  match s.data with
  | [y1, y2, y3, y4, h1, m1, m2, h2, d1, d2] =>
    if h1 = '-' ∧ h2 = '-'
        ∧ y1.isDigit ∧ y2.isDigit ∧ y3.isDigit ∧ y4.isDigit
        ∧ m1.isDigit ∧ m2.isDigit ∧ d1.isDigit ∧ d2.isDigit then
      let y : Int := digitsToNat [y1, y2, y3, y4]
      let m : Int := digitsToNat [m1, m2]
      let d : Int := digitsToNat [d1, d2]
      if 1 ≤ m ∧ m ≤ 12 ∧ 1 ≤ d ∧ d ≤ 31 then some ⟨y, m, d⟩ else none
    else none
  | _ => none

/-! ### Error messages (`ERROR_MESSAGES` in validation-constants.ts) -/

def FIRST_NAME_REQUIRED : String := "First name is required"
def FIRST_NAME_LENGTH : String := "First name must be between 1 and 100 characters"
def LAST_NAME_REQUIRED : String := "Last name is required"
def LAST_NAME_LENGTH : String := "Last name must be between 1 and 100 characters"
def DATE_OF_BIRTH_REQUIRED : String := "Date of birth is required"
def AGE_RANGE : String := "Age must be between 18 and 120 years"
def PHONE_REQUIRED : String := "Phone number is required"
def PHONE_LENGTH : String := "Phone number must be exactly 10 digits"
def STREET_ADDRESS_REQUIRED : String := "Street address is required"
def STREET_ADDRESS_LENGTH : String := "Street address must be between 1 and 255 characters"
def STATE_REQUIRED : String := "State is required"
def STATE_LENGTH : String := "State must be a valid 2-letter state code"
def STATE_INVALID : String := "Invalid US state code"
def ZIP_REQUIRED : String := "ZIP code is required"
def ZIP_FORMAT : String := "Invalid ZIP code format. Must be 12345 or 12345-6789"
def ZIP_RANGE : String := "ZIP code must be a valid US ZIP code (00501-99950)"
def FILES_REQUIRED : String := "At least one document is required"

def FILE_SIZE_MSG (filename : String) : String :=
  "File \"" ++ filename ++ "\" exceeds maximum allowed size (3MB)"
def FILE_TYPE_MSG (filename : String) : String :=
  "File \"" ++ filename ++ "\" has invalid type. Only PDF, JPG, and PNG are allowed"
def FILE_NAME_LENGTH_MSG (filename : String) : String :=
  "File name \"" ++ filename ++ "\" is too long. Maximum 255 characters allowed."
def FILE_MIME_TYPE_MSG (filename : String) : String :=
  "File \"" ++ filename ++ "\" has an invalid mime type."
def FILE_PATH_LENGTH_MSG (filename : String) : String :=
  "File name \"" ++ filename ++
    "\" results in a path that is too long. Please use a shorter filename."

/-! ### Field and file validators (investor-validation.ts) -/

/-- A `{field, message}` validation error (`ValidationError` interface). -/
structure VError where
  field : String
  message : String
deriving DecidableEq, Repr

/-- A Web API `File` as the validators see it: `name`, `size`, `type`. -/
structure JsFile where
  name : String
  size : Nat
  type : String
deriving DecidableEq, Repr

/-- `FILE_VALIDATION.MAX_SIZE` = 3 * 1024 * 1024. -/
def MAX_SIZE : Nat := 3 * 1024 * 1024

/-- `FILE_VALIDATION.ALLOWED_TYPES`. -/
def ALLOWED_TYPES : List String :=
  ["application/pdf", "image/jpeg", "image/jpg", "image/png"]

/-- `validateFirstName`: REQUIRED when the trimmed string is empty, LENGTH
when the trimmed length is below 1 or the raw length above 100. -/
def validateFirstName (firstName : String) : List VError :=
  if jsTrim firstName = "" then [⟨"firstName", FIRST_NAME_REQUIRED⟩]
  else if (jsTrim firstName).length < 1 ∨ firstName.length > 100 then
    [⟨"firstName", FIRST_NAME_LENGTH⟩]
  else []

/-- `validateLastName` (same shape as first name). -/
def validateLastName (lastName : String) : List VError :=
  if jsTrim lastName = "" then [⟨"lastName", LAST_NAME_REQUIRED⟩]
  else if (jsTrim lastName).length < 1 ∨ lastName.length > 100 then
    [⟨"lastName", LAST_NAME_LENGTH⟩]
  else []

/-- `validateStreetAddress` (255-character ceiling). -/
def validateStreetAddress (streetAddress : String) : List VError :=
  if jsTrim streetAddress = "" then [⟨"streetAddress", STREET_ADDRESS_REQUIRED⟩]
  else if (jsTrim streetAddress).length < 1 ∨ streetAddress.length > 255 then
    [⟨"streetAddress", STREET_ADDRESS_LENGTH⟩]
  else []

/-- `validateState`: REQUIRED on empty, LENGTH unless exactly 2 characters,
INVALID unless in the state table (case-insensitively). -/
def validateState (state : String) : List VError :=
  if state = "" then [⟨"state", STATE_REQUIRED⟩]
  else if state.length ≠ 2 then [⟨"state", STATE_LENGTH⟩]
  else if ¬ isValidStateCode state then [⟨"state", STATE_INVALID⟩]
  else []

/-- `validateZipCode`: REQUIRED on empty, FORMAT unless the regex matches,
RANGE unless the leading five digits are in `[501, 99950]`. -/
def validateZipCode (zipCode : String) : List VError :=
  if zipCode = "" then [⟨"zipCode", ZIP_REQUIRED⟩]
  else if ¬ zipFormatMatch zipCode then [⟨"zipCode", ZIP_FORMAT⟩]
  else if ¬ isValidZipRange zipCode then [⟨"zipCode", ZIP_RANGE⟩]
  else []

/-- `validateDateOfBirth`: REQUIRED on empty; otherwise `calculateAge` on
`new Date(dateOfBirth)`.  When the string does not parse, every accessor is
`NaN`, so the age is `NaN`, both comparisons `age < 18` and `age > 120` are
false, and no error is pushed — the `none` branch returns `[]`. -/
def validateDateOfBirth (now : SDate) (dateOfBirth : String) : List VError :=
  if dateOfBirth = "" then [⟨"dateOfBirth", DATE_OF_BIRTH_REQUIRED⟩]
  else
    match parseDate dateOfBirth with
    | none => []
    | some dob =>
      let age := calculateAge dob now
      if age < 18 ∨ age > 120 then [⟨"dateOfBirth", AGE_RANGE⟩] else []

/-- `validatePhoneNumber`: normalize first, REQUIRED when the normalized
string is empty, LENGTH unless exactly 10 digits remain. -/
def validatePhoneNumber (phoneNumber : String) : List VError :=
  let normalized := normalizePhoneNumber phoneNumber
  if normalized = "" then [⟨"phoneNumber", PHONE_REQUIRED⟩]
  else if normalized.length ≠ 10 then [⟨"phoneNumber", PHONE_LENGTH⟩]
  else []

/-- `validateFiles`: FILES_REQUIRED on an empty list; otherwise the four
per-file checks accumulate across every file. -/
def validateFiles (files : List JsFile) : List VError :=
  if files.isEmpty then [⟨"files", FILES_REQUIRED⟩]
  else
    files.flatMap fun file =>
      (if file.size > MAX_SIZE then [⟨"files", FILE_SIZE_MSG file.name⟩] else [])
      ++ (if ¬ ALLOWED_TYPES.contains file.type then
            [⟨"files", FILE_TYPE_MSG file.name⟩] else [])
      ++ (if file.name.length > 255 then
            [⟨"files", FILE_NAME_LENGTH_MSG file.name⟩] else [])
      ++ (if file.type.length > 100 then
            [⟨"files", FILE_MIME_TYPE_MSG file.name⟩] else [])

/-- `InvestorValidationData`: the seven scalar fields plus the files. -/
structure InvestorValidationData where
  firstName : String
  lastName : String
  dateOfBirth : String
  phoneNumber : String
  streetAddress : String
  state : String
  zipCode : String
  files : List JsFile
deriving DecidableEq, Repr

/-- The normalized value set in `ValidationResult.data`. -/
structure ValidatedData where
  firstName : String
  lastName : String
  dateOfBirth : String
  phoneNumber : String
  streetAddress : String
  state : String
  zipCode : String
  files : List JsFile
deriving DecidableEq, Repr

/-- `ValidationResult`. -/
structure ValidationResult where
  isValid : Bool
  errors : List VError
  data : Option ValidatedData
deriving DecidableEq, Repr

/-- The `errors` array built inside `validateInvestorData` by the eight
`errors.push(...)` calls, in their source order. -/
def investorErrors (now : SDate) (data : InvestorValidationData) : List VError :=
  validateFirstName data.firstName
  ++ validateLastName data.lastName
  ++ validateStreetAddress data.streetAddress
  ++ validateState data.state
  ++ validateZipCode data.zipCode
  ++ validateDateOfBirth now data.dateOfBirth
  ++ validatePhoneNumber data.phoneNumber
  ++ validateFiles data.files

/-- `validateInvestorData` (investor-validation.ts): run the eight validators
in their fixed order, concatenating errors; on success return the data with
the phone normalized and the state upper-cased.  `now` stands for the clock
read inside `calculateAge`. -/
def validateInvestorData (now : SDate) (data : InvestorValidationData) :
    ValidationResult :=
  let errors := investorErrors now data
  if errors.length > 0 then ⟨false, errors, none⟩
  else
    ⟨true, [],
      some ⟨data.firstName, data.lastName, data.dateOfBirth,
        normalizePhoneNumber data.phoneNumber, data.streetAddress,
        jsToUpper data.state, data.zipCode, data.files⟩⟩

/-! ### Database CHECK constraints (prisma migration `chk_*` on `investors`)

`dateMinusYears` embeds `CURRENT_DATE - INTERVAL 'n years'` (same month and
day, `n` subtracted from the year; the February-29 clamp never arises for
the dates considered here). -/

/-- An `investors` row as the route inserts it. -/
structure InvestorRow where
  first_name : String
  last_name : String
  date_of_birth : SDate
  phone_number : String
  street_address : String
  state : String
  zip_code : String
deriving DecidableEq, Repr

/-- Lexicographic order on civil dates. -/
def dateLE (a b : SDate) : Prop :=
  a.year < b.year ∨ (a.year = b.year ∧
    (a.month < b.month ∨ (a.month = b.month ∧ a.day ≤ b.day)))

instance : DecidablePred fun p : SDate × SDate => dateLE p.1 p.2 :=
  fun _ => by unfold dateLE; infer_instance

instance (a b : SDate) : Decidable (dateLE a b) := by
  unfold dateLE; infer_instance

/-- `CURRENT_DATE - INTERVAL 'n years'`. -/
def dateMinusYears (d : SDate) (n : Int) : SDate :=
  ⟨d.year - n, d.month, d.day⟩

/-- `chk_phone_number_format`: `phone_number ~ '^[0-9]{10}$'`. -/
def chk_phone_number_format (r : InvestorRow) : Prop :=
  r.phone_number.length = 10 ∧ r.phone_number.data.all Char.isDigit

/-- `chk_zip_code_format`: the ZIP regex together with
`CAST(SUBSTRING(zip_code, 1, 5) AS INTEGER) BETWEEN 501 AND 99950`. -/
def chk_zip_code_format (r : InvestorRow) : Prop :=
  zipFormatMatch r.zip_code ∧ 501 ≤ zipVal r.zip_code ∧ zipVal r.zip_code ≤ 99950

/-- `chk_date_of_birth_age`:
`date_of_birth <= CURRENT_DATE - INTERVAL '18 years'` and
`date_of_birth >= CURRENT_DATE - INTERVAL '120 years'`. -/
def chk_date_of_birth_age (today : SDate) (r : InvestorRow) : Prop :=
  dateLE r.date_of_birth (dateMinusYears today 18)
  ∧ dateLE (dateMinusYears today 120) r.date_of_birth

/-- `chk_first_name_length`:
`LENGTH(TRIM(first_name)) >= 1 AND LENGTH(first_name) <= 100`. -/
def chk_first_name_length (r : InvestorRow) : Prop :=
  1 ≤ (pgTrim r.first_name).length ∧ r.first_name.length ≤ 100

/-- `chk_last_name_length`. -/
def chk_last_name_length (r : InvestorRow) : Prop :=
  1 ≤ (pgTrim r.last_name).length ∧ r.last_name.length ≤ 100

/-- `chk_street_address_length`. -/
def chk_street_address_length (r : InvestorRow) : Prop :=
  1 ≤ (pgTrim r.street_address).length ∧ r.street_address.length ≤ 255

/-- Conjunction of every CHECK constraint the migration places on the
`investors` table.  There is no constraint on `state` beyond its CHAR(2)
column type. -/
def schemaChecks (today : SDate) (r : InvestorRow) : Prop :=
  chk_phone_number_format r ∧ chk_zip_code_format r
  ∧ chk_date_of_birth_age today r ∧ chk_first_name_length r
  ∧ chk_last_name_length r ∧ chk_street_address_length r

instance (today : SDate) (r : InvestorRow) : Decidable (schemaChecks today r) := by
  unfold schemaChecks chk_phone_number_format chk_zip_code_format
    chk_date_of_birth_age chk_first_name_length chk_last_name_length
    chk_street_address_length
  infer_instance

/-- The row the route inserts from a successful validation result: scalar
fields verbatim from the validated data (phone already normalized, state
already upper-cased), date of birth re-parsed by `new Date(...)`. -/
def rowOfValidated (vd : ValidatedData) (dob : SDate) : InvestorRow :=
  ⟨vd.firstName, vd.lastName, dob, vd.phoneNumber, vd.streetAddress,
    vd.state, vd.zipCode⟩

/-! ### File store (file-upload.ts) and intake route (route.ts)

Nondeterminism of the environment — `Date.now()` / `Math.random()` per
iteration, and the success of `mkdir`, `writeFile`, and the database call —
is supplied by an explicit `World`. -/

/-- Environment of one request: per-iteration name seeds (timestamp and
random suffix for the i-th processed file), outcome flags for `mkdir`,
`writeFile` (uniform over the request) and the database insert, and the
`UPLOAD_DIR` environment variable. -/
structure World where
  seeds : Nat → Nat × String
  mkdirOk : Bool
  writeOk : Bool
  dbOk : Bool
  envUploadDir : Option String

/-- JS `x || dflt` for an optional string (empty string is falsy). -/
def jsOrString (o : Option String) (dflt : String) : String :=
  match o with
  | some s => if s = "" then dflt else s
  | none => dflt

/-- JS `x || dflt` for an optional number (`0` is falsy). -/
def jsOrNat (o : Option Nat) (dflt : Nat) : Nat :=
  match o with
  | some n => if n = 0 then dflt else n
  | none => dflt

/-- `sanitizeFilename`: `filename.replace(/[^a-zA-Z0-9.-]/g, '_')`. -/
def sanitizeFilename (filename : String) : String :=
  String.mk (filename.data.map fun c =>
    if c.isAlphanum ∨ c = '.' ∨ c = '-' then c else '_')

/-- `generateUniqueFilename` (and the identical inline construction in the
route): `timestamp + '-' + randomSuffix + '-' + sanitizedFilename`, with the
timestamp and suffix supplied as a seed. -/
def generateUniqueFilename (seed : Nat × String) (originalFilename : String) :
    String :=
  toString seed.1 ++ "-" ++ seed.2 ++ "-" ++ sanitizeFilename originalFilename

/-- `FileUploadResult` metadata record. -/
structure FileUploadResult where
  filePath : String
  fileOriginalName : String
  fileSize : Nat
  mimeType : String
deriving DecidableEq, Repr

/-- `UploadConfig` for `uploadFiles`. -/
structure UploadConfig where
  uploadDir : Option String
  maxPathLength : Option Nat
deriving DecidableEq, Repr

instance {ε α : Type} [DecidableEq ε] [DecidableEq α] :
    DecidableEq (Except ε α)
  | .error e, .error f =>
    if h : e = f then .isTrue (by rw [h])
    else .isFalse (fun hh => h (by injection hh))
  | .error _, .ok _ => .isFalse (fun hh => Except.noConfusion hh)
  | .ok _, .error _ => .isFalse (fun hh => Except.noConfusion hh)
  | .ok x, .ok y =>
    if h : x = y then .isTrue (by rw [h])
    else .isFalse (fun hh => h (by injection hh))

/-- Result of `uploadFiles`: the returned value or thrown error message,
together with the unique filenames actually written to disk, in order. -/
structure UploadOutcome where
  result : Except String (List FileUploadResult)
  written : List String
deriving DecidableEq, Repr

/-- The per-file loop of `uploadFiles`: generate the unique name, reject if
the database path exceeds `maxPathLength` (before writing this file), then
write this file to disk, then recurse.  `k` is the absolute index used to
draw seeds; `acc` and `written` accumulate metadata and completed writes. -/
def uploadFilesLoop (w : World) (uploadDir : String) (maxPathLength : Nat) :
    Nat → List JsFile → List FileUploadResult → List String → UploadOutcome
  | _, [], acc, written => ⟨.ok acc, written⟩
  | k, file :: rest, acc, written =>
    let uniqueFilename := generateUniqueFilename (w.seeds k) file.name
    let dbFilePath := uploadDir ++ "/" ++ uniqueFilename
    if dbFilePath.length > maxPathLength then
      ⟨.error (FILE_PATH_LENGTH_MSG file.name), written⟩
    else if ¬ w.writeOk then
      ⟨.error "write failed", written⟩
    else
      uploadFilesLoop w uploadDir maxPathLength (k + 1) rest
        (acc ++ [⟨dbFilePath, file.name, file.size, file.type⟩])
        (written ++ [uniqueFilename])

/-- `config.uploadDir || process.env.UPLOAD_DIR || './uploads'`. -/
def resolvedUploadDir (w : World) (config : UploadConfig) : String :=
  jsOrString config.uploadDir (jsOrString w.envUploadDir "./uploads")

/-- `config.maxPathLength || 500`. -/
def resolvedMaxPathLength (config : UploadConfig) : Nat :=
  jsOrNat config.maxPathLength 500

/-- `uploadFiles` (file-upload.ts): resolve the directory and path ceiling,
run `ensureUploadDirectory` — whose failure rethrows, aborting the batch
before any write — then process the files. -/
def uploadFiles (w : World) (files : List JsFile) (config : UploadConfig) :
    UploadOutcome :=
  if ¬ w.mkdirOk then ⟨.error "Failed to create upload directory", []⟩
  else
    uploadFilesLoop w (resolvedUploadDir w config) (resolvedMaxPathLength config)
      0 files [] []

/-! ### The intake route `POST` (route.ts, the version calling
`validateInvestorData`) -/

/-- The raw multipart fields: `formData.get` yields `null` (`none`) for a
missing field. -/
structure RawForm where
  firstName : Option String
  lastName : Option String
  dateOfBirth : Option String
  phoneNumber : Option String
  streetAddress : Option String
  state : Option String
  zipCode : Option String
  files : List JsFile
deriving DecidableEq, Repr

/-- Coerce raw fields for the validators.  For the six non-phone fields a
`null` takes exactly the branch the empty string takes (`!state`,
`!zipCode`, `!dateOfBirth`, and `!field?.trim()` are all truthy on both), so
`null` is mapped to `""`.  The phone field is handled separately because
`normalizePhoneNumber` dereferences it before any emptiness test. -/
def rawToData (d : RawForm) : InvestorValidationData :=
  ⟨d.firstName.getD "", d.lastName.getD "", d.dateOfBirth.getD "",
    d.phoneNumber.getD "", d.streetAddress.getD "", d.state.getD "",
    d.zipCode.getD "", d.files⟩

/-- `validateInvestorData` as the route actually invokes it, on raw fields:
when `phoneNumber` is `null`, `normalizePhoneNumber(null)` calls
`null.replace`, throwing a `TypeError` out of the validator (`.error ()`). -/
def validateInvestorDataRaw (now : SDate) (d : RawForm) :
    Except Unit ValidationResult :=
  match d.phoneNumber with
  | none => .error ()
  | some _ => .ok (validateInvestorData now (rawToData d))

/-- Exceptional exits of the route's file loop. -/
inductive RouteLoopExit where
  | pathTooLong (originalName : String)
  | writeFailed
deriving DecidableEq, Repr

/-- The route's inline file loop: identical name generation, a hard-coded
500-character path ceiling checked before this file's write, then
`writeFile`.  A path failure returns a 400 response (files already written
stay on disk); a write failure throws to the route's catch-all. -/
def routeFileLoop (w : World) (uploadDir : String) :
    Nat → List JsFile → List FileUploadResult → List String →
    Except RouteLoopExit (List FileUploadResult) × List String
  | _, [], acc, written => (.ok acc, written)
  | k, file :: rest, acc, written =>
    let fileName := generateUniqueFilename (w.seeds k) file.name
    let dbFilePath := uploadDir ++ "/" ++ fileName
    if dbFilePath.length > 500 then
      (.error (.pathTooLong file.name), written)
    else if ¬ w.writeOk then
      (.error .writeFailed, written)
    else
      routeFileLoop w uploadDir (k + 1) rest
        (acc ++ [⟨dbFilePath, file.name, file.size, file.type⟩])
        (written ++ [fileName])

/-- Observable outcome of one `POST` request: HTTP status, the `error`
message of a 400 body (the 500 bodies, built from `parsePrismaError`, are
not modelled and left `""`), the unique filenames written to disk, and the
database record created, if any. -/
structure PostOutcome where
  status : Nat
  body : String
  written : List String
  dbRecord : Option (ValidatedData × List FileUploadResult)
deriving DecidableEq, Repr

/-- `POST` (route.ts): validate — a thrown `TypeError` reaches the catch-all
(500); an invalid result returns 400 with the first error's message — then
attempt `mkdir`, whose failure is caught, logged and ignored; then the file
loop; then the database insert (201 on success, catch-all 500 on failure,
with the files already on disk left orphaned). -/
def POST (now : SDate) (w : World) (d : RawForm) : PostOutcome :=
  match validateInvestorDataRaw now d with
  | .error _ => ⟨500, "", [], none⟩
  | .ok validation =>
    if validation.isValid = false then
      ⟨400, (validation.errors.headD ⟨"", ""⟩).message, [], none⟩
    else
      match validation.data with
      | none => ⟨500, "", [], none⟩
      | some validatedData =>
        let uploadDir := jsOrString w.envUploadDir "./uploads"
        match routeFileLoop w uploadDir 0 validatedData.files [] [] with
        | (.error (.pathTooLong name), written) =>
          ⟨400, FILE_PATH_LENGTH_MSG name, written, none⟩
        | (.error .writeFailed, written) => ⟨500, "", written, none⟩
        | (.ok fileDataArray, written) =>
          if w.dbOk then ⟨201, "", written, some (validatedData, fileDataArray)⟩
          else ⟨500, "", written, none⟩

/-! ### Helper lemmas -/

theorem stringMk_eq_empty_iff (l : List Char) : String.mk l = "" ↔ l = [] := by
  constructor
  · intro h
    have h2 : l = ("" : String).data := congrArg String.data h
    exact h2.trans rfl
  · intro h
    rw [h]

theorem string_length_data (s : String) : s.length = s.data.length := rfl

theorem takeWhile_all {p : Char → Bool} {l : List Char}
    (h : ∀ c ∈ l, p c = true) : l.takeWhile p = l :=
  List.takeWhile_eq_self_iff.mpr h

theorem takeWhile_append_all {p : Char → Bool} {a : List Char} (b : List Char)
    (h : ∀ c ∈ a, p c = true) :
    (a ++ b).takeWhile p = a ++ b.takeWhile p := by
  induction a with
  | nil => simp
  | cons x xs ih =>
    have hx : p x = true := h x (List.mem_cons_self x xs)
    simp only [List.cons_append, List.takeWhile_cons, hx, if_true]
    rw [ih (fun c hc => h c (List.mem_cons_of_mem x hc))]

theorem trimBy_eq_nil_iff (p : Char → Bool) (l : List Char) :
    trimBy p l = [] ↔ ∀ c ∈ l, p c = true := by
  unfold trimBy
  rw [List.reverse_eq_nil_iff, List.dropWhile_eq_nil_iff]
  constructor
  · intro h c hc
    rcases List.mem_append.mp (by rw [List.takeWhile_append_dropWhile (p := p)]; exact hc) with hm | hm
    · exact List.mem_takeWhile_imp hm
    · exact h c (List.mem_reverse.mpr hm)
  · intro h c hc
    exact h c (List.dropWhile_sublist p |>.subset (List.mem_reverse.mp hc))

theorem isDigit_ne_hyphen {c : Char} (h : c.isDigit = true) : ¬ (c = '-') := by
  intro hc
  rw [hc] at h
  exact absurd h (by decide)

theorem space_isWhitespace : Char.isWhitespace ' ' = true := by decide

/-- A string with a non-whitespace character keeps a character under the
space-only PostgreSQL `TRIM`. -/
theorem pgTrim_length_pos {s : String} (h : jsTrim s ≠ "") :
    1 ≤ (pgTrim s).length := by
  have h1 : ¬ ∀ c ∈ s.data, c.isWhitespace = true := by
    intro hall
    apply h
    unfold jsTrim
    rw [stringMk_eq_empty_iff]
    exact (trimBy_eq_nil_iff _ _).mpr hall
  have h2 : ¬ ∀ c ∈ s.data, (c = ' ' : Bool) = true := by
    intro hall
    apply h1
    intro c hc
    have := hall c hc
    have hc' : c = ' ' := by simpa using this
    rw [hc']
    exact space_isWhitespace
  have h3 : trimBy (· = ' ') s.data ≠ [] := fun hnil =>
    h2 ((trimBy_eq_nil_iff _ _).mp hnil)
  have h4 : (pgTrim s).data ≠ [] := by
    unfold pgTrim
    exact h3
  rw [string_length_data]
  exact Nat.one_le_iff_ne_zero.mpr (fun h0 => h4 (List.length_eq_zero.mp h0))

theorem filter_all_digits (l : List Char) :
    (l.filter Char.isDigit).all Char.isDigit = true :=
  List.all_eq_true.mpr fun _ hx => List.of_mem_filter hx

/-- A regex-matching ZIP string: the prefix before the first hyphen is
exactly the leading five digits. -/
theorem zipFormat_core {s : String} (h : zipFormatMatch s = true) :
    s.data.takeWhile (· ≠ '-') = s.data.take 5 ∧
    (s.data.take 5).all Char.isDigit = true ∧ 5 ≤ s.data.length := by
  unfold zipFormatMatch at h
  simp only [Bool.or_eq_true, Bool.and_eq_true, decide_eq_true_eq] at h
  rcases h with ⟨hlen, hdig⟩ | ⟨⟨⟨hlen, h5⟩, hmid⟩, h6⟩
  · have hdig' : ∀ c ∈ s.data, c.isDigit = true := List.all_eq_true.mp hdig
    have htake : s.data.take 5 = s.data := List.take_of_length_le (by omega)
    refine ⟨?_, ?_, by omega⟩
    · rw [htake]
      apply takeWhile_all
      intro c hc
      simpa using isDigit_ne_hyphen (hdig' c hc)
    · rw [htake]
      exact hdig
  · have hdlen : (s.data.drop 5).length = 5 := by
      rw [List.length_drop, hlen]
    cases hd : s.data.drop 5 with
    | nil => rw [hd] at hdlen; simp at hdlen
    | cons m rest =>
      rw [hd] at hmid h6
      have hm : m = '-' := by simpa using hmid
      have hsplit : s.data = s.data.take 5 ++ m :: rest := by
        rw [← hd, List.take_append_drop]
      refine ⟨?_, h5, by omega⟩
      conv_lhs => rw [hsplit]
      rw [takeWhile_append_all _ (fun c hc => by
            simpa using isDigit_ne_hyphen (List.all_eq_true.mp h5 c hc))]
      rw [hm]
      have hstop : List.takeWhile (fun c => decide (c ≠ '-')) (('-' : Char) :: rest)
          = [] := by
        simp [List.takeWhile_cons]
      rw [hstop, List.append_nil]

/-- For a regex-matching ZIP string, `parseInt(zip.split('-')[0], 10)`
computes the value of the leading five digits, so range acceptance is
exactly the `[501, 99950]` window on that value. -/
theorem isValidZipRange_iff {s : String} (h : zipFormatMatch s = true) :
    (isValidZipRange s = true) ↔ (501 ≤ zipVal s ∧ zipVal s ≤ 99950) := by
  obtain ⟨htw, hdig, hlen⟩ := zipFormat_core h
  have ht5len : (s.data.take 5).length = 5 := by
    rw [List.length_take]
    omega
  have hsplit : jsSplitHyphenHead s = String.mk (s.data.take 5) := by
    unfold jsSplitHyphenHead
    rw [htw]
  have htwd : (String.mk (s.data.take 5)).data.takeWhile Char.isDigit
      = s.data.take 5 := takeWhile_all (List.all_eq_true.mp hdig)
  have hne : ((String.mk (s.data.take 5)).data.takeWhile Char.isDigit).isEmpty
      = false := by
    rw [htwd, List.isEmpty_eq_false_iff_exists_mem]
    have : s.data.take 5 ≠ [] := by
      intro h0
      rw [h0] at ht5len
      simp at ht5len
    exact List.exists_mem_of_ne_nil _ this
  have hne2 : s.data ≠ [] := by
    intro h0
    rw [h0] at hlen
    simp at hlen
  unfold isValidZipRange jsParseInt zipVal
  rw [hsplit]
  simp only [htwd]
  simp [hne2, decide_eq_true_eq]

/-! ### Inversion lemmas for the individual validators -/

theorem validateFirstName_nil {s : String} (h : validateFirstName s = []) :
    jsTrim s ≠ "" ∧ s.length ≤ 100 := by
  unfold validateFirstName at h
  by_cases h1 : jsTrim s = ""
  · rw [if_pos h1] at h
    cases h
  · rw [if_neg h1] at h
    by_cases h2 : (jsTrim s).length < 1 ∨ s.length > 100
    · rw [if_pos h2] at h
      cases h
    · push_neg at h2
      exact ⟨h1, h2.2⟩

theorem validateLastName_nil {s : String} (h : validateLastName s = []) :
    jsTrim s ≠ "" ∧ s.length ≤ 100 := by
  unfold validateLastName at h
  by_cases h1 : jsTrim s = ""
  · rw [if_pos h1] at h
    cases h
  · rw [if_neg h1] at h
    by_cases h2 : (jsTrim s).length < 1 ∨ s.length > 100
    · rw [if_pos h2] at h
      cases h
    · push_neg at h2
      exact ⟨h1, h2.2⟩

theorem validateStreetAddress_nil {s : String} (h : validateStreetAddress s = []) :
    jsTrim s ≠ "" ∧ s.length ≤ 255 := by
  unfold validateStreetAddress at h
  by_cases h1 : jsTrim s = ""
  · rw [if_pos h1] at h
    cases h
  · rw [if_neg h1] at h
    by_cases h2 : (jsTrim s).length < 1 ∨ s.length > 255
    · rw [if_pos h2] at h
      cases h
    · push_neg at h2
      exact ⟨h1, h2.2⟩

theorem validatePhoneNumber_nil {s : String} (h : validatePhoneNumber s = []) :
    (normalizePhoneNumber s).length = 10 := by
  unfold validatePhoneNumber at h
  by_cases h1 : normalizePhoneNumber s = ""
  · rw [if_pos h1] at h
    cases h
  · rw [if_neg h1] at h
    by_cases h2 : (normalizePhoneNumber s).length ≠ 10
    · rw [if_pos h2] at h
      cases h
    · push_neg at h2
      exact h2

theorem validateZipCode_nil {s : String} (h : validateZipCode s = []) :
    zipFormatMatch s = true ∧ isValidZipRange s = true := by
  unfold validateZipCode at h
  by_cases h1 : s = ""
  · rw [if_pos h1] at h
    cases h
  · rw [if_neg h1] at h
    by_cases h2 : ¬ zipFormatMatch s = true
    · rw [if_pos h2] at h
      cases h
    · rw [if_neg h2] at h
      push_neg at h2
      by_cases h3 : ¬ isValidZipRange s = true
      · rw [if_pos h3] at h
        cases h
      · push_neg at h3
        exact ⟨h2, h3⟩

theorem validateDateOfBirth_nil_parsed {now : SDate} {s : String} {dob : SDate}
    (h : validateDateOfBirth now s = []) (hp : parseDate s = some dob) :
    18 ≤ calculateAge dob now ∧ calculateAge dob now ≤ 120 := by
  unfold validateDateOfBirth at h
  by_cases h1 : s = ""
  · rw [if_pos h1] at h
    cases h
  · rw [if_neg h1, hp] at h
    by_cases h2 : calculateAge dob now < 18 ∨ calculateAge dob now > 120
    · simp only [h2, if_true] at h
      cases h
    · push_neg at h2
      exact ⟨h2.1, h2.2⟩

/-! ### Age arithmetic -/

/-- The code's decrement condition (`monthDiff < 0`, or `monthDiff = 0` and
`dayDiff < 0`) is exactly "the current month/day precedes the birth
month/day", so `calculateAge` is the anniversary-based whole-year age. -/
theorem calculateAge_eq_anniversaryAge (dob now : SDate) :
    calculateAge dob now = anniversaryAge dob now := by
  unfold calculateAge anniversaryAge
  by_cases hc : now.month - dob.month < 0
      ∨ (now.month - dob.month = 0 ∧ now.day - dob.day < 0)
  · rw [if_pos hc, if_pos (by omega)]
  · rw [if_neg hc, if_neg (by omega)]
    omega

/-- Eighteen whole anniversary years means the birth date is on or before
the same month/day eighteen calendar years earlier. -/
theorem age_ge18_iff (dob now : SDate) :
    18 ≤ calculateAge dob now ↔ dateLE dob (dateMinusYears now 18) := by
  unfold calculateAge dateLE dateMinusYears
  by_cases hc : now.month - dob.month < 0
      ∨ (now.month - dob.month = 0 ∧ now.day - dob.day < 0)
  · rw [if_pos hc]
    simp only []
    omega
  · rw [if_neg hc]
    simp only []
    omega

/-- Shape of a successful validation result. -/
theorem validate_success_shape (now : SDate) (d : InvestorValidationData)
    (hv : (validateInvestorData now d).isValid = true) :
    investorErrors now d = [] ∧
    validateInvestorData now d =
      ⟨true, [], some ⟨d.firstName, d.lastName, d.dateOfBirth,
        normalizePhoneNumber d.phoneNumber, d.streetAddress,
        jsToUpper d.state, d.zipCode, d.files⟩⟩ := by
  by_cases hc : (investorErrors now d).length > 0
  · exfalso
    have hshape : validateInvestorData now d = ⟨false, investorErrors now d, none⟩ := by
      unfold validateInvestorData
      simp [hc]
    rw [hshape] at hv
    cases hv
  · have he : investorErrors now d = [] := List.length_eq_zero.mp (by omega)
    refine ⟨he, ?_⟩
    unfold validateInvestorData
    simp [hc]

/-- Shape of a failed validation result. -/
theorem validate_failure_shape (now : SDate) (d : InvestorValidationData)
    (hv : (validateInvestorData now d).isValid = false) :
    validateInvestorData now d = ⟨false, investorErrors now d, none⟩
    ∧ investorErrors now d ≠ [] := by
  by_cases hc : (investorErrors now d).length > 0
  · constructor
    · unfold validateInvestorData
      simp [hc]
    · intro h0
      rw [h0] at hc
      simp at hc
  · exfalso
    have hshape : (validateInvestorData now d).isValid = true := by
      unfold validateInvestorData
      simp [hc]
    rw [hshape] at hv
    cases hv

/-- Default `JsFile` used with `List.getD`. -/
def defFile : JsFile := ⟨"", 0, ""⟩

/-- The file-store loop on a batch whose first over-long stored path occurs
at position `i`: every earlier file has already been written when the error
is raised, and nothing from position `i` on is ever written. -/
theorem uploadFilesLoop_first_long (w : World) (uploadDir : String) (maxLen : Nat)
    (hw : w.writeOk = true) :
    ∀ (i k : Nat) (fs : List JsFile) (acc : List FileUploadResult)
      (written : List String),
    i < fs.length →
    (∀ j, j < i →
      (uploadDir ++ "/" ++
        generateUniqueFilename (w.seeds (k + j)) ((fs.getD j defFile).name)).length
        ≤ maxLen) →
    (uploadDir ++ "/" ++
      generateUniqueFilename (w.seeds (k + i)) ((fs.getD i defFile).name)).length
      > maxLen →
    uploadFilesLoop w uploadDir maxLen k fs acc written =
      ⟨.error (FILE_PATH_LENGTH_MSG ((fs.getD i defFile).name)),
        written ++ (List.range i).map
          (fun j => generateUniqueFilename (w.seeds (k + j))
            ((fs.getD j defFile).name))⟩ := by
  intro i
  induction i with
  | zero =>
    intro k fs acc written hi hgood hbad
    cases fs with
    | nil => simp at hi
    | cons f rest =>
      simp only [Nat.add_zero, List.getD_cons_zero] at hbad ⊢
      unfold uploadFilesLoop
      rw [if_pos hbad]
      simp
  | succ n ih =>
    intro k fs acc written hi hgood hbad
    cases fs with
    | nil => simp at hi
    | cons f rest =>
      have hgood0 := hgood 0 (Nat.succ_pos n)
      simp only [Nat.add_zero, List.getD_cons_zero] at hgood0
      unfold uploadFilesLoop
      rw [if_neg (by omega)]
      rw [if_neg (by simp [hw])]
      have hlen : n < rest.length := by
        simp only [List.length_cons] at hi
        omega
      have hgood' : ∀ j, j < n →
          (uploadDir ++ "/" ++
            generateUniqueFilename (w.seeds (k + 1 + j))
              ((rest.getD j defFile).name)).length ≤ maxLen := by
        intro j hj
        have := hgood (j + 1) (by omega)
        simp only [List.getD_cons_succ] at this
        have harith : k + (j + 1) = k + 1 + j := by omega
        rw [harith] at this
        exact this
      have hbad' :
          (uploadDir ++ "/" ++
            generateUniqueFilename (w.seeds (k + 1 + n))
              ((rest.getD n defFile).name)).length > maxLen := by
        simp only [List.getD_cons_succ] at hbad
        have harith : k + (n + 1) = k + 1 + n := by omega
        rw [harith] at hbad
        exact hbad
      rw [ih (k + 1) rest _
        (written ++ [generateUniqueFilename (w.seeds k) f.name])
        hlen hgood' hbad']
      simp only [List.getD_cons_succ]
      have hmap :
          List.map (fun j => generateUniqueFilename (w.seeds (k + 1 + j))
              ((rest.getD j defFile).name)) (List.range n)
          = List.map ((fun j => generateUniqueFilename (w.seeds (k + j))
              (((f :: rest).getD j defFile).name)) ∘ Nat.succ) (List.range n) := by
        apply List.map_congr_left
        intro j hj
        simp only [Function.comp_apply, List.getD_cons_succ]
        have harith : k + 1 + j = k + (j + 1) := by omega
        rw [harith]
      congr 1
      rw [List.append_assoc]
      congr 1
      rw [hmap, List.range_succ_eq_map, List.map_cons, List.map_map,
        List.singleton_append]
      simp

/-! ### Concrete fixtures for witnesses and counterexamples -/

/-- A fixed "now" used by the concrete scenarios: 2026-10-12. -/
def cNow : SDate := ⟨2026, 10, 12⟩

/-- A small accepted PDF upload. -/
def cFilePdf : JsFile := ⟨"doc.pdf", 1000, "application/pdf"⟩

/-- A fully valid submission. -/
def cForm : InvestorValidationData :=
  ⟨"John", "Doe", "1990-05-10", "(951) 526-3834", "1 Main St", "CA", "92507",
    [cFilePdf]⟩

/-- Deterministic name seeds: the i-th processed file draws timestamp
`i + 1` and suffix `"abc"`. -/
def cSeeds : Nat → Nat × String := fun k => (k + 1, "abc")

/-- Environment in which every operation succeeds. -/
def cWorld : World := ⟨cSeeds, true, true, true, none⟩

/-- Environment in which only the `mkdir` of the upload directory fails. -/
def cWorldNoMkdir : World := ⟨cSeeds, false, true, true, none⟩

/-- The valid submission as raw multipart fields. -/
def cRaw : RawForm :=
  ⟨some "John", some "Doe", some "1990-05-10", some "(951) 526-3834",
    some "1 Main St", some "CA", some "92507", [cFilePdf]⟩

/-- Valid fields but zero uploaded files. -/
def cRawNoFiles : RawForm :=
  ⟨some "John", some "Doe", some "1990-05-10", some "(951) 526-3834",
    some "1 Main St", some "CA", some "92507", []⟩

/-- Valid fields but the `phoneNumber` field absent from the form data. -/
def cRawNoPhone : RawForm :=
  ⟨some "John", some "Doe", some "1990-05-10", none,
    some "1 Main St", some "CA", some "92507", [cFilePdf]⟩

/-- Valid fields except a non-empty, unparseable date of birth. -/
def cFormBadDob : InvestorValidationData :=
  ⟨"John", "Doe", "hello", "9515263834", "1 Main St", "CA", "92507",
    [cFilePdf]⟩

/-- The unparseable-date submission as raw multipart fields. -/
def cRawBadDob : RawForm :=
  ⟨some "John", some "Doe", some "hello", some "9515263834",
    some "1 Main St", some "CA", some "92507", [cFilePdf]⟩

/-- A 488-character upload directory, so that a generated name can push the
stored path past 500 characters. -/
def cLongDir : String := String.mk (List.replicate 488 'u')

/-- First file of the two-file batch: stored path exactly 500 characters. -/
def cFileA : JsFile := ⟨"a.pdf", 10, "application/pdf"⟩

/-- Second file: stored path 501 characters, exceeding the ceiling. -/
def cFileB : JsFile := ⟨"bb.pdf", 10, "application/pdf"⟩

/-- Upload configuration pointing at the long directory. -/
def cCfgLong : UploadConfig := ⟨some cLongDir, none⟩

/-- The validated data of `cForm`. -/
def cVd : ValidatedData :=
  ⟨"John", "Doe", "1990-05-10", "9515263834", "1 Main St", "CA", "92507",
    [cFilePdf]⟩

/-- A row satisfying every schema CHECK whose state is not a US code. -/
def cRowZZ : InvestorRow :=
  ⟨"John", "Doe", ⟨1990, 5, 10⟩, "9515263834", "1 Main St", "ZZ", "92507"⟩

/-- The matching submission with state `"ZZ"`. -/
def cFormZZ : InvestorValidationData :=
  ⟨"John", "Doe", "1990-05-10", "9515263834", "1 Main St", "ZZ", "92507",
    [cFilePdf]⟩

/-- A row whose owner is 120 years and one day old at `cNow`. -/
def cRowOld : InvestorRow :=
  ⟨"John", "Doe", ⟨1905, 10, 13⟩, "9515263834", "1 Main St", "CA", "92507"⟩

/-- The matching submission with date of birth 1905-10-13. -/
def cFormOld : InvestorValidationData :=
  ⟨"John", "Doe", "1905-10-13", "9515263834", "1 Main St", "CA", "92507",
    [cFilePdf]⟩

instance (today : SDate) (r : InvestorRow) :
    Decidable (chk_date_of_birth_age today r) := by
  unfold chk_date_of_birth_age
  infer_instance

/-! ### Claim theorems -/

/-- C1 (amended): for every valid submission the stored phone number is the
input with every non-digit character stripped; `"(951) 526-3834"` and
`"9515263834"` both normalize to `"9515263834"`, but `"1-951-526-3834"`
normalizes to `"19515263834"` (11 digits — the leading country code is kept
by the strip) and is therefore rejected with the phone-length error. -/
theorem valid_submission_phone_is_stripped_input (now : SDate)
    (d : InvestorValidationData)
    (hv : (validateInvestorData now d).isValid = true) :
    ((validateInvestorData now d).data.map ValidatedData.phoneNumber)
      = some (String.mk (d.phoneNumber.data.filter Char.isDigit))
    ∧ normalizePhoneNumber "(951) 526-3834" = "9515263834"
    ∧ normalizePhoneNumber "9515263834" = "9515263834"
    ∧ normalizePhoneNumber "1-951-526-3834" = "19515263834"
    ∧ validatePhoneNumber "1-951-526-3834" = [⟨"phoneNumber", PHONE_LENGTH⟩] := by
  obtain ⟨-, hshape⟩ := validate_success_shape now d hv
  refine ⟨?_, by decide, by decide, by decide, by decide⟩
  rw [hshape]
  rfl

/-- C1 witness: the amended theorem applied to the concrete valid
submission `cForm`. -/
theorem valid_submission_phone_witness :
    ((validateInvestorData cNow cForm).data.map ValidatedData.phoneNumber)
      = some (String.mk (cForm.phoneNumber.data.filter Char.isDigit))
    ∧ normalizePhoneNumber "(951) 526-3834" = "9515263834"
    ∧ normalizePhoneNumber "9515263834" = "9515263834"
    ∧ normalizePhoneNumber "1-951-526-3834" = "19515263834"
    ∧ validatePhoneNumber "1-951-526-3834" = [⟨"phoneNumber", PHONE_LENGTH⟩] :=
  valid_submission_phone_is_stripped_input cNow cForm (by decide)

/-- C1 counterexample: the spec's example `"1-951-526-3834"` does not
normalize to `"9515263834"` — stripping non-digits keeps the leading 1. -/
theorem phone_example_keeps_country_code :
    normalizePhoneNumber "1-951-526-3834" = "19515263834"
    ∧ normalizePhoneNumber "1-951-526-3834" ≠ "9515263834" := by
  constructor
  · decide
  · decide

/-- C2 (amended): when the first over-long stored path in the batch occurs
at position `i`, `uploadFiles` fails with the path-length error naming that
file's original name, the offending file and every later file are never
written — each file's path check happens before that file's own write — but
every file before position `i` has already been written to disk (the batch
is not all-or-nothing; only for `i = 0` is nothing written). -/
theorem uploadFiles_first_overlong_path (w : World) (files : List JsFile)
    (config : UploadConfig) (i : Nat)
    (hm : w.mkdirOk = true) (hw : w.writeOk = true)
    (hi : i < files.length)
    (hgood : ∀ j, j < i → (resolvedUploadDir w config ++ "/" ++
        generateUniqueFilename (w.seeds j) ((files.getD j defFile).name)).length
        ≤ resolvedMaxPathLength config)
    (hbad : (resolvedUploadDir w config ++ "/" ++
        generateUniqueFilename (w.seeds i) ((files.getD i defFile).name)).length
        > resolvedMaxPathLength config) :
    uploadFiles w files config =
      ⟨.error (FILE_PATH_LENGTH_MSG ((files.getD i defFile).name)),
        (List.range i).map (fun j => generateUniqueFilename (w.seeds j)
          ((files.getD j defFile).name))⟩ := by
  unfold uploadFiles
  rw [if_neg (by simp [hm])]
  have hloop := uploadFilesLoop_first_long w (resolvedUploadDir w config)
    (resolvedMaxPathLength config) hw i 0 files [] [] hi
    (by intro j hj; simpa using hgood j hj)
    (by simpa using hbad)
  rw [hloop]
  simp

/-- C2 witness: the amended theorem applied to the two-file batch whose
second stored path is 501 characters: the error names `"bb.pdf"` and the
first file is on disk. -/
theorem uploadFiles_overlong_witness :
    uploadFiles cWorld [cFileA, cFileB] cCfgLong =
      ⟨.error (FILE_PATH_LENGTH_MSG "bb.pdf"), ["1-abc-a.pdf"]⟩ := by
  have h := uploadFiles_first_overlong_path cWorld [cFileA, cFileB] cCfgLong 1
    rfl rfl (by decide) (by decide) (by decide)
  exact h.trans (by decide)

/-- C2 counterexample: a batch whose second file's generated stored path has
501 characters fails with the path-length error, yet the first file of the
batch has already been written to disk — not all-or-nothing. -/
theorem uploadFiles_writes_before_failing :
    (uploadFiles cWorld [cFileA, cFileB] cCfgLong).result
      = .error (FILE_PATH_LENGTH_MSG "bb.pdf")
    ∧ (uploadFiles cWorld [cFileA, cFileB] cCfgLong).written = ["1-abc-a.pdf"]
    ∧ (uploadFiles cWorld [cFileA, cFileB] cCfgLong).written ≠ []
    ∧ (resolvedUploadDir cWorld cCfgLong ++ "/" ++
        generateUniqueFilename (cWorld.seeds 1) cFileB.name).length = 501 := by
  refine ⟨by decide, by decide, by decide, by decide⟩

/-- C3 (amended): in the file-store module, failure to create the upload
directory is fatal — `uploadFiles` rethrows before any write, so nothing is
written; the intake route, however, catches and logs its own `mkdir`
failure and continues, so a request in a world where `mkdir` failed still
writes its files and creates a database record. -/
theorem dir_creation_failure_fatal_in_file_store (w : World)
    (files : List JsFile) (config : UploadConfig) (h : w.mkdirOk = false) :
    uploadFiles w files config = ⟨.error "Failed to create upload directory", []⟩
    ∧ (POST cNow cWorldNoMkdir cRaw).status = 201
    ∧ (POST cNow cWorldNoMkdir cRaw).written ≠ []
    ∧ (POST cNow cWorldNoMkdir cRaw).dbRecord.isSome = true := by
  refine ⟨?_, by decide, by decide, by decide⟩
  unfold uploadFiles
  rw [if_pos (by simp [h])]

/-- C3 witness: the amended theorem applied to the failing-`mkdir` world and
a one-file batch. -/
theorem dir_creation_failure_witness :
    uploadFiles cWorldNoMkdir [cFilePdf] ⟨none, none⟩
      = ⟨.error "Failed to create upload directory", []⟩
    ∧ (POST cNow cWorldNoMkdir cRaw).status = 201
    ∧ (POST cNow cWorldNoMkdir cRaw).written ≠ []
    ∧ (POST cNow cWorldNoMkdir cRaw).dbRecord.isSome = true :=
  dir_creation_failure_fatal_in_file_store cWorldNoMkdir [cFilePdf]
    ⟨none, none⟩ rfl

/-- C3 counterexample: for a request in a world where creation of the upload
directory fails, the route still returns 201, writes the file to disk and
creates the database record — the failure is not fatal at the route. -/
theorem route_ignores_mkdir_failure :
    cWorldNoMkdir.mkdirOk = false
    ∧ (POST cNow cWorldNoMkdir cRaw).status = 201
    ∧ (POST cNow cWorldNoMkdir cRaw).written = ["1-abc-doc.pdf"]
    ∧ (POST cNow cWorldNoMkdir cRaw).dbRecord.isSome = true := by
  refine ⟨rfl, by decide, by decide, by decide⟩

/-- C4 (amended): every record accepted by the server-side validator
satisfies the schema's name/address-length, phone-format and ZIP CHECK
constraints, and the 18-year side of the age CHECK; but the two layers do
not accept the same records — the schema has no state-membership
constraint, and its 120-year lower bound rejects validator-accepted dates
more than 120 calendar years old. -/
theorem validator_accepted_satisfies_schema_checks (now : SDate)
    (d : InvestorValidationData) (vd : ValidatedData) (dob : SDate)
    (hv : (validateInvestorData now d).isValid = true)
    (hd : (validateInvestorData now d).data = some vd)
    (hp : parseDate d.dateOfBirth = some dob) :
    chk_first_name_length (rowOfValidated vd dob)
    ∧ chk_last_name_length (rowOfValidated vd dob)
    ∧ chk_street_address_length (rowOfValidated vd dob)
    ∧ chk_phone_number_format (rowOfValidated vd dob)
    ∧ chk_zip_code_format (rowOfValidated vd dob)
    ∧ dateLE dob (dateMinusYears now 18) := by
  obtain ⟨herr, hshape⟩ := validate_success_shape now d hv
  rw [hshape] at hd
  injection hd with hd
  unfold investorErrors at herr
  obtain ⟨herr, _h8⟩ := List.append_eq_nil.mp herr
  obtain ⟨herr, h7⟩ := List.append_eq_nil.mp herr
  obtain ⟨herr, h6⟩ := List.append_eq_nil.mp herr
  obtain ⟨herr, h5⟩ := List.append_eq_nil.mp herr
  obtain ⟨herr, _h4⟩ := List.append_eq_nil.mp herr
  obtain ⟨herr, h3⟩ := List.append_eq_nil.mp herr
  obtain ⟨h1, h2⟩ := List.append_eq_nil.mp herr
  obtain ⟨hfn1, hfn2⟩ := validateFirstName_nil h1
  obtain ⟨hln1, hln2⟩ := validateLastName_nil h2
  obtain ⟨hsa1, hsa2⟩ := validateStreetAddress_nil h3
  obtain ⟨hz1, hz2⟩ := validateZipCode_nil h5
  have hph := validatePhoneNumber_nil h7
  have hage := (validateDateOfBirth_nil_parsed h6 hp).1
  subst hd
  unfold rowOfValidated chk_first_name_length chk_last_name_length
    chk_street_address_length chk_phone_number_format chk_zip_code_format
  refine ⟨⟨pgTrim_length_pos hfn1, hfn2⟩, ⟨pgTrim_length_pos hln1, hln2⟩,
    ⟨pgTrim_length_pos hsa1, hsa2⟩, ⟨hph, filter_all_digits _⟩,
    ⟨hz1, ((isValidZipRange_iff hz1).mp hz2)⟩, (age_ge18_iff dob now).mp hage⟩

/-- C4 witness: the amended theorem applied to the concrete valid
submission `cForm` and its stored row. -/
theorem validator_schema_witness :
    chk_first_name_length (rowOfValidated cVd ⟨1990, 5, 10⟩)
    ∧ chk_last_name_length (rowOfValidated cVd ⟨1990, 5, 10⟩)
    ∧ chk_street_address_length (rowOfValidated cVd ⟨1990, 5, 10⟩)
    ∧ chk_phone_number_format (rowOfValidated cVd ⟨1990, 5, 10⟩)
    ∧ chk_zip_code_format (rowOfValidated cVd ⟨1990, 5, 10⟩)
    ∧ dateLE (⟨1990, 5, 10⟩ : SDate) (dateMinusYears cNow 18) :=
  validator_accepted_satisfies_schema_checks cNow cForm cVd ⟨1990, 5, 10⟩
    (by decide) (by decide) (by decide)

/-- C4 counterexample: the two enforcement layers do not accept the same
records.  The row with state `"ZZ"` satisfies every schema CHECK constraint
while the validator rejects the matching submission; conversely the
validator accepts a date of birth of 1905-10-13 at now = 2026-10-12
(anniversary age exactly 120), which violates `chk_date_of_birth_age`. -/
theorem schema_validator_disagree :
    schemaChecks cNow cRowZZ
    ∧ (validateInvestorData cNow cFormZZ).isValid = false
    ∧ (validateInvestorData cNow cFormOld).isValid = true
    ∧ ¬ chk_date_of_birth_age cNow cRowOld := by
  refine ⟨by decide, by decide, by decide, by decide⟩

/-- C5: when validation fails, the route responds 400 with exactly the
message of the first error in the validator's (non-empty) error list, and
neither a file write nor a database write happens for the request. -/
theorem post_validation_failure_first_error (now : SDate) (w : World)
    (d : RawForm) (v : ValidationResult)
    (h : validateInvestorDataRaw now d = .ok v)
    (hv : v.isValid = false) :
    POST now w d = ⟨400, (v.errors.headD ⟨"", ""⟩).message, [], none⟩
    ∧ v.errors ≠ [] := by
  constructor
  · unfold POST
    rw [h]
    simp [hv]
  · unfold validateInvestorDataRaw at h
    cases hp : d.phoneNumber with
    | none =>
      rw [hp] at h
      cases h
    | some p =>
      rw [hp] at h
      injection h with h
      rw [← h] at hv
      obtain ⟨hshape, hne⟩ := validate_failure_shape now (rawToData d) hv
      rw [← h, hshape]
      exact hne

/-- C5 witness: the theorem applied to a submission with zero files — the
request is rejected with the files-required message before any directory
creation, file write or database write. -/
theorem post_zero_files_witness :
    POST cNow cWorld cRawNoFiles = ⟨400, FILES_REQUIRED, [], none⟩ := by
  have h := post_validation_failure_first_error cNow cWorld cRawNoFiles
    (validateInvestorData cNow (rawToData cRawNoFiles)) rfl (by decide)
  exact h.1.trans (by decide)

/-- C6: the validator computes the complete error list — the concatenation
of the eight per-field validators' lists, in the fixed order first name,
last name, street address, state, ZIP, date of birth, phone, files — so the
list (and its order) is a function of the input alone. -/
theorem validation_errors_complete_and_ordered (now : SDate)
    (d : InvestorValidationData) :
    (validateInvestorData now d).errors = investorErrors now d
    ∧ investorErrors now d =
      validateFirstName d.firstName
      ++ validateLastName d.lastName
      ++ validateStreetAddress d.streetAddress
      ++ validateState d.state
      ++ validateZipCode d.zipCode
      ++ validateDateOfBirth now d.dateOfBirth
      ++ validatePhoneNumber d.phoneNumber
      ++ validateFiles d.files := by
  constructor
  · by_cases hc : (investorErrors now d).length > 0
    · unfold validateInvestorData
      simp [hc]
    · have he : investorErrors now d = [] := List.length_eq_zero.mp (by omega)
      unfold validateInvestorData
      simp [hc, he]
  · rfl

/-- C7: for every ZIP matching the format regex, the validator accepts it
iff the numeric value of the leading five digits lies in `[501, 99950]`;
in particular `"00500"` and `"99951"` are rejected with the range error
while `"00501"` and `"99950"` are accepted. -/
theorem zip_format_accept_iff_range (s : String)
    (h : zipFormatMatch s = true) :
    (validateZipCode s = [] ↔ (501 ≤ zipVal s ∧ zipVal s ≤ 99950))
    ∧ validateZipCode "00500" = [⟨"zipCode", ZIP_RANGE⟩]
    ∧ validateZipCode "00501" = []
    ∧ validateZipCode "99950" = []
    ∧ validateZipCode "99951" = [⟨"zipCode", ZIP_RANGE⟩] := by
  refine ⟨?_, by decide, by decide, by decide, by decide⟩
  have hne : s ≠ "" := by
    obtain ⟨-, -, hlen⟩ := zipFormat_core h
    intro h0
    rw [h0] at hlen
    exact absurd hlen (by decide)
  unfold validateZipCode
  rw [if_neg hne, if_neg (by simp [h])]
  by_cases hr : isValidZipRange s = true
  · rw [if_neg (by simp [hr])]
    exact iff_of_true rfl ((isValidZipRange_iff h).mp hr)
  · rw [if_pos (by simp [hr])]
    exact iff_of_false (by simp) (fun hc => hr ((isValidZipRange_iff h).mpr hc))

/-- C7 witness: the theorem applied to the 5+4 format ZIP
`"92507-1234"`. -/
theorem zip_range_witness :
    (validateZipCode "92507-1234" = []
      ↔ (501 ≤ zipVal "92507-1234" ∧ zipVal "92507-1234" ≤ 99950))
    ∧ validateZipCode "00500" = [⟨"zipCode", ZIP_RANGE⟩]
    ∧ validateZipCode "00501" = []
    ∧ validateZipCode "99950" = []
    ∧ validateZipCode "99951" = [⟨"zipCode", ZIP_RANGE⟩] :=
  zip_format_accept_iff_range "92507-1234" (by decide)

/-- C8: for a non-empty, parseable date of birth, the computed age is the
anniversary-based whole-year age (calendar-year difference, decremented
when the current month/day precedes the birth month/day), and the validator
accepts exactly ages in `[18, 120]`; at now = 2026-10-12 a birth date of
exactly 18 years and 0 days before (2008-10-12) is accepted while one day
short of 18 years (2008-10-13) is rejected. -/
theorem age_anniversary_and_window (now : SDate) (s : String) (dob : SDate)
    (hs : s ≠ "") (hp : parseDate s = some dob) :
    calculateAge dob now = anniversaryAge dob now
    ∧ (validateDateOfBirth now s = []
        ↔ (18 ≤ calculateAge dob now ∧ calculateAge dob now ≤ 120))
    ∧ validateDateOfBirth ⟨2026, 10, 12⟩ "2008-10-12" = []
    ∧ validateDateOfBirth ⟨2026, 10, 12⟩ "2008-10-13"
        = [⟨"dateOfBirth", AGE_RANGE⟩] := by
  refine ⟨calculateAge_eq_anniversaryAge dob now, ?_, by decide, by decide⟩
  unfold validateDateOfBirth
  rw [if_neg hs, hp]
  dsimp only
  by_cases hc : calculateAge dob now < 18 ∨ calculateAge dob now > 120
  · rw [if_pos hc]
    exact iff_of_false (by simp) (by omega)
  · rw [if_neg hc]
    exact iff_of_true rfl (by omega)

/-- C8 witness: the theorem applied to the boundary date 2008-10-12 at
now = 2026-10-12 (exactly 18 years). -/
theorem age_window_witness :
    calculateAge ⟨2008, 10, 12⟩ ⟨2026, 10, 12⟩
        = anniversaryAge ⟨2008, 10, 12⟩ ⟨2026, 10, 12⟩
    ∧ (validateDateOfBirth ⟨2026, 10, 12⟩ "2008-10-12" = []
        ↔ (18 ≤ calculateAge ⟨2008, 10, 12⟩ ⟨2026, 10, 12⟩
            ∧ calculateAge ⟨2008, 10, 12⟩ ⟨2026, 10, 12⟩ ≤ 120))
    ∧ validateDateOfBirth ⟨2026, 10, 12⟩ "2008-10-12" = []
    ∧ validateDateOfBirth ⟨2026, 10, 12⟩ "2008-10-13"
        = [⟨"dateOfBirth", AGE_RANGE⟩] :=
  age_anniversary_and_window ⟨2026, 10, 12⟩ "2008-10-12" ⟨2008, 10, 12⟩
    (by decide) (by decide)

/-- C9: a non-empty date of birth that does not parse yields `NaN`
arithmetic in `calculateAge`, both range comparisons are false, so the
dateOfBirth field contributes no error; with every other field valid the
whole validation succeeds and — as the concrete run shows — the request
proceeds through the file and persistence stages to a 201. -/
theorem unparseable_dob_passes_validation (now : SDate)
    (d : InvestorValidationData)
    (h1 : d.dateOfBirth ≠ "") (h2 : parseDate d.dateOfBirth = none)
    (hothers : validateFirstName d.firstName = []
      ∧ validateLastName d.lastName = []
      ∧ validateStreetAddress d.streetAddress = []
      ∧ validateState d.state = []
      ∧ validateZipCode d.zipCode = []
      ∧ validatePhoneNumber d.phoneNumber = []
      ∧ validateFiles d.files = []) :
    validateDateOfBirth now d.dateOfBirth = []
    ∧ (validateInvestorData now d).isValid = true
    ∧ (POST cNow cWorld cRawBadDob).status = 201
    ∧ (POST cNow cWorld cRawBadDob).dbRecord.isSome = true := by
  have hdob : validateDateOfBirth now d.dateOfBirth = [] := by
    unfold validateDateOfBirth
    rw [if_neg h1, h2]
  obtain ⟨hf, hl, hst, hsa, hz, hph, hfl⟩ := hothers
  refine ⟨hdob, ?_, by decide, by decide⟩
  have herr : investorErrors now d = [] := by
    unfold investorErrors
    rw [hf, hl, hst, hsa, hz, hdob, hph, hfl]
    rfl
  unfold validateInvestorData
  simp [herr]

/-- C9 witness: the theorem applied to the submission whose date of birth is
the unparseable string `"hello"` and whose other fields are valid. -/
theorem unparseable_dob_witness :
    validateDateOfBirth cNow cFormBadDob.dateOfBirth = []
    ∧ (validateInvestorData cNow cFormBadDob).isValid = true
    ∧ (POST cNow cWorld cRawBadDob).status = 201
    ∧ (POST cNow cWorld cRawBadDob).dbRecord.isSome = true :=
  unparseable_dob_passes_validation cNow cFormBadDob (by decide) (by decide)
    ⟨by decide, by decide, by decide, by decide, by decide, by decide,
      by decide⟩

/-- C10: when the `phoneNumber` form field is absent (`null`),
`validateInvestorData` never returns — `normalizePhoneNumber` dereferences
its argument unconditionally, so the call throws — and the route's
catch-all answers 500 (server error) instead of a 400 validation message;
no file write and no database write happen. -/
theorem null_phone_throws_and_500 (now : SDate) (w : World) (d : RawForm)
    (h : d.phoneNumber = none) :
    validateInvestorDataRaw now d = .error ()
    ∧ POST now w d = ⟨500, "", [], none⟩ := by
  have hval : validateInvestorDataRaw now d = .error () := by
    unfold validateInvestorDataRaw
    rw [h]
  refine ⟨hval, ?_⟩
  unfold POST
  rw [hval]

/-- C10 witness: the theorem applied to the concrete form with no
phoneNumber field. -/
theorem null_phone_witness :
    validateInvestorDataRaw cNow cRawNoPhone = .error ()
    ∧ POST cNow cWorld cRawNoPhone = ⟨500, "", [], none⟩ :=
  null_phone_throws_and_500 cNow cWorld cRawNoPhone rfl

end IntakeModel
